import Mathlib

/-!
Shallow embedding of the `cross-file-id` Rust crate (src/lib.rs, src/unix.rs,
src/win.rs, src/unknown.rs) for checking its specification.

Machine integers (`u64`, `u32`, `u8`) are modelled as `Nat`: the code never
performs arithmetic on them, only equality and ordering, which agree with the
`Nat` operations. Raw file descriptors/handles are modelled as `Nat`. OS calls
(`File::open`, `metadata`, `GetFileType`, `GetFileInformationByHandleEx`) are
modelled as oracle functions passed in explicitly; fallible calls return
`Except IoError`.
-/

namespace CrossFileId

/-- Model of `std::io::ErrorKind` (only the kinds this crate constructs or
propagates are distinguished; OS errors carry their raw code). -/
inductive ErrorKind : Type where
  | invalidData
  | other
  | notFound
  | osError (code : Nat)
deriving DecidableEq, Repr

/-- Model of `std::io::Error`: a kind plus a message. -/
structure IoError : Type where
  kind : ErrorKind
  msg : String
deriving DecidableEq, Repr

/-- Raw OS file descriptor / handle (`RawFd` / `RawFilelike`). -/
abbrev Fd : Type := Nat

/-- Filesystem path, abstracted to a string. -/
abbrev FsPath : Type := String

/-- The open/closed state of every file descriptor in the process:
`σ fd = true` means `fd` is open. -/
abbrev FdState : Type := Fd → Bool

/-- The OS `close` syscall on one descriptor. -/
def closeFd (fd : Fd) (σ : FdState) : FdState :=
  fun x => if x = fd then false else σ x

namespace Unix

/-- Model of `std::fs::Metadata` restricted to the fields `unix.rs` reads
(`md.dev()` and `md.ino()`). -/
structure Metadata : Type where
  dev : Nat
  ino : Nat
deriving DecidableEq, Repr

/-- `src/unix.rs`: `pub struct FileIdentity { dev: u64, ino: u64 }`. -/
structure FileIdentity : Type where
  dev : Nat
  ino : Nat
deriving DecidableEq, Repr

/-- Derived `PartialEq` on `FileIdentity`: field-wise equality. -/
def FileIdentity.beq (a b : FileIdentity) : Bool :=
  a.dev == b.dev && a.ino == b.ino

/-- Derived `Ord` on `FileIdentity`: lexicographic by declaration order,
`dev` first, then `ino`. -/
def FileIdentity.cmp (a b : FileIdentity) : Ordering :=
  (compare a.dev b.dev).then (compare a.ino b.ino)

/-- Rust `a < b` for an `Ord` type: `cmp` returns `Less`. -/
def FileIdentity.ltb (a b : FileIdentity) : Bool :=
  FileIdentity.cmp a b == Ordering.lt

/-- Rust `a <= b` for an `Ord` type: `cmp` does not return `Greater`. -/
def FileIdentity.leb (a b : FileIdentity) : Bool :=
  FileIdentity.cmp a b != Ordering.gt

/-- Derived `PartialOrd` on `FileIdentity`: `partial_cmp = Some(cmp)`. -/
def FileIdentity.partial_cmp (a b : FileIdentity) : Option Ordering :=
  some (FileIdentity.cmp a b)

/-- `src/unix.rs`: `FileIdentity::from_metadata`. -/
def FileIdentity.from_metadata (md : Metadata) : FileIdentity :=
  { dev := md.dev, ino := md.ino }

/-- Model of Rust's owning `std::fs::File` wrapper around a raw fd, as used
inside `FileIdentity::from_os_file`. `owner = some fd` is a live `File` that
owns `fd`; `none` is a `File` already consumed by `into_raw_fd`. -/
structure RsFile : Type where
  owner : Option Fd
deriving DecidableEq, Repr

/-- `File::from_raw_fd`: builds an owning `File` from a raw fd (no syscall). -/
def RsFile.from_raw_fd (fd : Fd) : RsFile :=
  { owner := some fd }

/-- `File::into_raw_fd`: consumes the `File`, releasing ownership of the fd
without closing it. Returns the raw fd and the spent wrapper. -/
def RsFile.into_raw_fd (f : RsFile) : Option Fd × RsFile :=
  (f.owner, { owner := none })

/-- `Drop for File`: when a still-owning `File` goes out of scope the fd is
closed; a wrapper consumed by `into_raw_fd` closes nothing. -/
def RsFile.dropFile (f : RsFile) (σ : FdState) : FdState :=
  match f.owner with
  | some fd => closeFd fd σ
  | none => σ

/-- `src/unix.rs` lines 17–31, `FileIdentity::from_os_file`: wraps the raw fd
in a temporary owning `File`, queries its metadata (oracle `md`), then calls
`into_raw_fd` (not `?`, and not a plain drop) so the temporary wrapper never
closes the caller's descriptor; the `?` is applied only after the wrapper has
been consumed. Returns the result together with the fd-state after the
wrapper's end of scope. -/
def FileIdentity.from_os_file (md : Fd → Except IoError Metadata) (f : Fd)
    (σ : FdState) : Except IoError FileIdentity × FdState :=
  let temp_file := RsFile.from_raw_fd f
  let result := md f
  let (_raw, spent) := temp_file.into_raw_fd
  let σ' := spent.dropFile σ
  (result.map FileIdentity.from_metadata, σ')

end Unix

namespace Win

/-- Windows `GetFileType` result (`u32`). -/
abbrev FILE_TYPE : Type := Nat

/-- `FILE_TYPE_DISK = 0x0001`. -/
def FILE_TYPE_DISK : FILE_TYPE := 1

/-- Windows `FILE_ID_128`: a 128-bit identifier stored as bytes
(`Identifier: [u8; 16]`), modelled as a list of byte values. -/
structure FILE_ID_128 : Type where
  Identifier : List Nat
deriving DecidableEq, Repr

/-- Rust slice/array lexicographic `cmp`, as `<[u8; 16]>::cmp` performs:
compare element-wise; the first non-equal pair decides; a strict prefix is
less. -/
def cmpBytes : List Nat → List Nat → Ordering
  | [], [] => Ordering.eq
  | [], _ :: _ => Ordering.lt
  | _ :: _, [] => Ordering.gt
  | x :: xs, y :: ys => (compare x y).then (cmpBytes xs ys)

/-- `src/win.rs` lines 57–59, `compare_file_id_128`: delegates to the byte
array comparison `a.Identifier.cmp(&b.Identifier)`. -/
def compare_file_id_128 (a b : FILE_ID_128) : Ordering :=
  cmpBytes a.Identifier b.Identifier

/-- Windows `FILE_ID_INFO`: volume serial number (`u64`) plus the 128-bit
file identifier. -/
structure FILE_ID_INFO : Type where
  VolumeSerialNumber : Nat
  FileId : FILE_ID_128
deriving DecidableEq, Repr

/-- `PartialEq` of the `windows` crate's `FILE_ID_128`: byte-wise equality of
the identifier. -/
def FILE_ID_128.beq (a b : FILE_ID_128) : Bool :=
  a.Identifier == b.Identifier

/-- `PartialEq` of the `windows` crate's `FILE_ID_INFO`: field-wise. -/
def FILE_ID_INFO.beq (a b : FILE_ID_INFO) : Bool :=
  a.VolumeSerialNumber == b.VolumeSerialNumber &&
    FILE_ID_128.beq a.FileId b.FileId

/-- `src/win.rs` lines 61–64: `pub struct FileId { file_id_info: FILE_ID_INFO }`. -/
structure FileId : Type where
  file_id_info : FILE_ID_INFO
deriving DecidableEq, Repr

/-- Derived `PartialEq` on `FileId` (line 61): delegates to
`FILE_ID_INFO`'s equality. -/
def FileId.beq (a b : FileId) : Bool :=
  FILE_ID_INFO.beq a.file_id_info b.file_id_info

/-- `src/win.rs` lines 74–86, `impl Ord for FileId`: volume serial number
first, `then_with` the 128-bit identifier. -/
def FileId.cmp (a b : FileId) : Ordering :=
  (compare a.file_id_info.VolumeSerialNumber
      b.file_id_info.VolumeSerialNumber).then
    (compare_file_id_128 a.file_id_info.FileId b.file_id_info.FileId)

/-- `src/win.rs` lines 68–72, `impl PartialOrd for FileId`:
`Some(self.cmp(other))`. -/
def FileId.partial_cmp (a b : FileId) : Option Ordering :=
  some (FileId.cmp a b)

/-- Rust `a < b` for `FileId`: `cmp` returns `Less`. -/
def FileId.ltb (a b : FileId) : Bool :=
  FileId.cmp a b == Ordering.lt

/-- Rust `a <= b` for `FileId`: `cmp` does not return `Greater`. -/
def FileId.leb (a b : FileId) : Bool :=
  FileId.cmp a b != Ordering.gt

/-- The message of the `InvalidData` error built at `src/win.rs` lines
101–107: `format!("Unable to get information about handle of type {:?}", file_type)`. -/
def invalidDataMsg (file_type : FILE_TYPE) : String :=
  "Unable to get information about handle of type " ++ toString file_type

/-- The Windows syscalls `FileId::from_filelike` consumes, as oracles. -/
structure WinOs : Type where
  getFileType : Fd → FILE_TYPE
  getFileInformationByHandleEx : Fd → Except IoError FILE_ID_INFO

/-- Result of `FileId::from_filelike` together with whether the
`GetFileInformationByHandleEx` identity query was issued. -/
structure FromFilelikeRun : Type where
  result : Except IoError FileId
  queried : Bool
deriving Repr

/-- `src/win.rs` lines 95–120, `FileId::from_filelike`: first `GetFileType`;
a non-`FILE_TYPE_DISK` handle is rejected with an `InvalidData` error naming
the handle type before any identity query; otherwise
`GetFileInformationByHandleEx` is issued and its error (if any) is returned
by `?` unchanged. -/
def FileId.from_filelike (os : WinOs) (f : Fd) : FromFilelikeRun :=
  let file_type := os.getFileType f
  if file_type ≠ FILE_TYPE_DISK then
    { result := Except.error
        { kind := ErrorKind.invalidData, msg := invalidDataMsg file_type },
      queried := false }
  else
    match os.getFileInformationByHandleEx f with
    | Except.error e => { result := Except.error e, queried := true }
    | Except.ok info =>
        { result := Except.ok { file_id_info := info }, queried := true }

end Win

/-! ### The portable facade of `src/lib.rs`

`lib.rs` compiles against exactly one platform module `imp`; the facade is
generic in the platform identity type `Id` and receives the platform
operations (`extract`, equality, comparison) and the OS calls (`openRO`) as
explicit arguments. -/

/-- `src/lib.rs` lines 74–78: `pub struct Handle<F> { handle: F, identity: FileId }`. -/
structure Handle (Id F : Type) : Type where
  handle : F
  identity : Id

/-- `src/lib.rs` lines 143–147, `impl PartialEq<Handle<F2>> for Handle<F1>`:
`self.identity == other.identity`, where `==` is the platform identity
equality `beq`. -/
def Handle.eqOp {Id F1 F2 : Type} (beq : Id → Id → Bool)
    (h1 : Handle Id F1) (h2 : Handle Id F2) : Bool :=
  beq h1.identity h2.identity

/-- `src/lib.rs` lines 151–155, `impl PartialOrd<Handle<F2>> for Handle<F1>`:
`self.identity.partial_cmp(&other.identity)`. -/
def Handle.partialCmpOp {Id F1 F2 : Type} (pcmp : Id → Id → Option Ordering)
    (h1 : Handle Id F1) (h2 : Handle Id F2) : Option Ordering :=
  pcmp h1.identity h2.identity

/-- `src/lib.rs` lines 157–161, `impl Ord for Handle<F>`:
`self.identity.cmp(&other.identity)`. -/
def Handle.cmpOp {Id F : Type} (cmp : Id → Id → Ordering)
    (h1 h2 : Handle Id F) : Ordering :=
  cmp h1.identity h2.identity

/-- `src/lib.rs` lines 99–101, `Handle::into_inner`. -/
def Handle.into_inner {Id F : Type} (this : Handle Id F) : F :=
  this.handle

/-- `src/lib.rs` lines 108–110, `Handle::id`: `this.identity.clone()` (the
value returned). -/
def Handle.id {Id F : Type} (this : Handle Id F) : Id :=
  this.identity

/-- `Handle::id` takes `this: Self` by value: after `this.identity.clone()`
the whole `Handle` is dropped, which drops the wrapped resource `F` (for an
owned `File`, this closes it). `dropF` is the wrapped resource's drop
semantics on the fd-state. -/
def Handle.idConsume {Id F : Type} (dropF : F → FdState → FdState)
    (this : Handle Id F) (σ : FdState) : Id × FdState :=
  (this.identity, dropF this.handle σ)

/-- `src/lib.rs` lines 123–126, `Handle::from_file_like`:
`let file_id = FileId::from_file_like(&file)?; Ok(Handle { handle: file, identity: file_id })`.
`extract` is the platform identity extraction on a borrowed resource. -/
def Handle.from_file_like {Id F : Type} (extract : F → Except IoError Id)
    (file : F) : Except IoError (Handle Id F) :=
  match extract file with
  | Except.error e => Except.error e
  | Except.ok file_id => Except.ok { handle := file, identity := file_id }

/-- `src/lib.rs` lines 197–200, `Handle::from_path`:
`let file = std::fs::File::open(p)?; Self::from_file_like(file)`.
`openRO` is the read-only `File::open` oracle. -/
def Handle.from_path {Id F : Type} (openRO : FsPath → Except IoError F)
    (extract : F → Except IoError Id) (p : FsPath) :
    Except IoError (Handle Id F) :=
  match openRO p with
  | Except.error e => Except.error e
  | Except.ok file => Handle.from_file_like extract file

/-- `src/lib.rs` lines 235–237, `Handle::from_file`: delegates to
`from_file_like`. -/
def Handle.from_file {Id F : Type} (extract : F → Except IoError Id)
    (file : F) : Except IoError (Handle Id F) :=
  Handle.from_file_like extract file

/-- `src/lib.rs` lines 363–369, `is_same_file`:
`Ok(Handle::from_path(path1)? == Handle::from_path(path2)?)`. -/
def is_same_file {Id F : Type} (openRO : FsPath → Except IoError F)
    (extract : F → Except IoError Id) (beq : Id → Id → Bool)
    (path1 path2 : FsPath) : Except IoError Bool :=
  match Handle.from_path openRO extract path1 with
  | Except.error e => Except.error e
  | Except.ok h1 =>
    match Handle.from_path openRO extract path2 with
    | Except.error e => Except.error e
    | Except.ok h2 => Except.ok (Handle.eqOp beq h1 h2)

/-- `is_same_file` unfolded in Rust evaluation order (left operand of `==`
first, `?` returns early), additionally recording which paths were passed to
`File::open`. -/
def is_same_file_run {Id F : Type} (openRO : FsPath → Except IoError F)
    (extract : F → Except IoError Id) (beq : Id → Id → Bool)
    (path1 path2 : FsPath) : Except IoError Bool × List FsPath :=
  match openRO path1 with
  | Except.error e => (Except.error e, [path1])
  | Except.ok f1 =>
    match extract f1 with
    | Except.error e => (Except.error e, [path1])
    | Except.ok id1 =>
      match openRO path2 with
      | Except.error e => (Except.error e, [path1, path2])
      | Except.ok f2 =>
        match extract f2 with
        | Except.error e => (Except.error e, [path1, path2])
        | Except.ok id2 => (Except.ok (beq id1 id2), [path1, path2])

/-! ### The `unix.rs` legacy `Handle` (same-file style), cited by C8 -/

namespace Unix

/-- `src/unix.rs` lines 46–53: `pub struct Handle { file: Option<File>, is_std: bool, id: FileIdentity }`.
The owned `File` is modelled by its raw fd. -/
structure UHandle : Type where
  file : Option Fd
  is_std : Bool
  id : FileIdentity
deriving DecidableEq, Repr

/-- `src/unix.rs` lines 55–64, `impl Drop for Handle`: when `is_std`, the
`File` is taken out of the option and consumed by `into_raw_fd`, so no close
happens; otherwise the `Drop` body does nothing and the `Option<File>` field
is dropped normally, closing the fd when it is `Some`. -/
def UHandle.dropH (h : UHandle) (σ : FdState) : FdState :=
  if h.is_std then
    match h.file with
    | some fd => ((RsFile.from_raw_fd fd).into_raw_fd.2).dropFile σ
    | none => σ
  else
    match h.file with
    | some fd => (RsFile.from_raw_fd fd).dropFile σ
    | none => σ

/-- `src/unix.rs` lines 101–108, `Handle::from_file`: queries the file's
metadata, stores the open file with `is_std: false` and the identity from
the metadata. -/
def UHandle.from_file (md : Fd → Except IoError Metadata) (file : Fd) :
    Except IoError UHandle :=
  match md file with
  | Except.error e => Except.error e
  | Except.ok m =>
      Except.ok { file := some file, is_std := false,
                  id := FileIdentity.from_metadata m }

/-- `src/unix.rs` lines 110–115, `Handle::from_std`: `from_file` then set
`is_std` to true. -/
def UHandle.from_std (md : Fd → Except IoError Metadata) (file : Fd) :
    Except IoError UHandle :=
  (UHandle.from_file md file).map (fun h => { h with is_std := true })

/-- `src/unix.rs` lines 117–119, `Handle::stdin`: `from_std` on fd 0. -/
def UHandle.stdin (md : Fd → Except IoError Metadata) :
    Except IoError UHandle :=
  UHandle.from_std md 0

/-- `src/unix.rs` lines 121–123, `Handle::stdout`: `from_std` on fd 1. -/
def UHandle.stdout (md : Fd → Except IoError Metadata) :
    Except IoError UHandle :=
  UHandle.from_std md 1

/-- `src/unix.rs` lines 125–127, `Handle::stderr`: `from_std` on fd 2. -/
def UHandle.stderr (md : Fd → Except IoError Metadata) :
    Except IoError UHandle :=
  UHandle.from_std md 2

end Unix

/-! ### The unsupported-platform stub of `src/unknown.rs` -/

namespace Unknown

/-- `src/unknown.rs` line 7: the fixed error message. -/
def ERROR_MESSAGE : String := "same-file is not supported on this platform."

/-- `src/unknown.rs` lines 83–85, `fn error<T>()`: the one fixed
`ErrorKind::Other` error every operation returns. -/
def fixedError (α : Type) : Except IoError α :=
  Except.error { kind := ErrorKind.other, msg := ERROR_MESSAGE }

/-- `src/unknown.rs` lines 9–10: `pub struct FileIdentity(Never)` — an
uninhabited type. -/
structure FileIdentity : Type where
  toNever : Empty

/-- `src/unknown.rs` lines 18–22, `PartialEq for FileIdentity`:
`match self.0 {}` — unreachable. -/
def FileIdentity.beq (a : FileIdentity) (_other : FileIdentity) : Bool :=
  a.toNever.elim

/-- `src/unknown.rs` lines 33–37, `Ord for FileIdentity`: `match self.0 {}`
— unreachable. -/
def FileIdentity.cmp (a : FileIdentity) (_other : FileIdentity) : Ordering :=
  a.toNever.elim

/-- `src/unknown.rs` lines 13–15, `FileIdentity::from_os_file`: always the
fixed error. -/
def FileIdentity.from_os_file (_f : Fd) : Except IoError FileIdentity :=
  fixedError FileIdentity

/-- `src/unknown.rs` lines 42–43: `pub struct Handle(Never)`. -/
structure UnkHandle : Type where
  toNever : Empty

/-- `src/unknown.rs` lines 54–56, `Handle::from_path`: always the fixed
error; the path is never opened. -/
def UnkHandle.from_path (_p : FsPath) : Except IoError UnkHandle :=
  fixedError UnkHandle

/-- `src/unknown.rs` lines 58–60, `Handle::from_file`. -/
def UnkHandle.from_file {F : Type} (_file : F) : Except IoError UnkHandle :=
  fixedError UnkHandle

/-- `src/unknown.rs` lines 62–64, `Handle::stdin`. -/
def UnkHandle.stdin : Except IoError UnkHandle :=
  fixedError UnkHandle

/-- `src/unknown.rs` lines 66–68, `Handle::stdout`. -/
def UnkHandle.stdout : Except IoError UnkHandle :=
  fixedError UnkHandle

/-- `src/unknown.rs` lines 70–72, `Handle::stderr`. -/
def UnkHandle.stderr : Except IoError UnkHandle :=
  fixedError UnkHandle

end Unknown

/-! ### Concrete oracle instances used to exercise the embedded operations -/

namespace Fixtures

/-- A filesystem with a single file `"a"` on fd 3; opening anything else is
`NotFound`. -/
def openA : FsPath → Except IoError Fd := fun p =>
  if p = "a" then Except.ok 3
  else Except.error { kind := ErrorKind.notFound, msg := "No such file" }

/-- An extractor that succeeds, deriving the identity from the fd. -/
def extractDev : Fd → Except IoError Unix.FileIdentity := fun f =>
  Except.ok { dev := 1, ino := f }

/-- An extractor that always fails. -/
def extractFail : Fd → Except IoError Unix.FileIdentity := fun _ =>
  Except.error { kind := ErrorKind.other, msg := "metadata failed" }

/-- A metadata oracle that succeeds, deriving the inode from the fd. -/
def mdOk : Fd → Except IoError Unix.Metadata := fun f =>
  Except.ok { dev := 1, ino := f }

/-- A metadata oracle that always fails. -/
def mdErr : Fd → Except IoError Unix.Metadata := fun _ =>
  Except.error { kind := ErrorKind.other, msg := "metadata failed" }

/-- A Windows OS where every handle is a pipe (`GetFileType` = 3). -/
def winOsPipe : Win.WinOs :=
  { getFileType := fun _ => 3,
    getFileInformationByHandleEx := fun _ =>
      Except.ok { VolumeSerialNumber := 7, FileId := { Identifier := [1] } } }

/-- A Windows OS where every handle is a disk file and the identity query
succeeds. -/
def winOsDisk : Win.WinOs :=
  { getFileType := fun _ => 1,
    getFileInformationByHandleEx := fun _ =>
      Except.ok { VolumeSerialNumber := 7, FileId := { Identifier := [1] } } }

/-- A Windows OS where every handle is a disk file but the identity query
fails with an OS error. -/
def winOsDiskErr : Win.WinOs :=
  { getFileType := fun _ => 1,
    getFileInformationByHandleEx := fun _ =>
      Except.error { kind := ErrorKind.osError 5, msg := "Access is denied." } }

/-- An fd-state with every descriptor open. -/
def allOpen : FdState := fun _ => true

end Fixtures

/-! ### Helper lemmas on `Ordering.then` and the embedded comparisons -/

theorem then_eq_gt_iff (o p : Ordering) :
    o.then p = Ordering.gt ↔ o = Ordering.gt ∨ (o = Ordering.eq ∧ p = Ordering.gt) := by
  cases o <;> cases p <;> decide

theorem then_eq_lt_iff (o p : Ordering) :
    o.then p = Ordering.lt ↔ o = Ordering.lt ∨ (o = Ordering.eq ∧ p = Ordering.lt) := by
  cases o <;> cases p <;> decide

theorem then_eq_eq_iff (o p : Ordering) :
    o.then p = Ordering.eq ↔ o = Ordering.eq ∧ p = Ordering.eq := by
  cases o <;> cases p <;> decide

theorem unix_cmp_gt_iff (a b : Unix.FileIdentity) :
    Unix.FileIdentity.cmp a b = Ordering.gt ↔
      b.dev < a.dev ∨ (a.dev = b.dev ∧ b.ino < a.ino) := by
  simp [Unix.FileIdentity.cmp, then_eq_gt_iff, Nat.compare_eq_gt, Nat.compare_eq_eq]

theorem unix_cmp_lt_iff (a b : Unix.FileIdentity) :
    Unix.FileIdentity.cmp a b = Ordering.lt ↔
      a.dev < b.dev ∨ (a.dev = b.dev ∧ a.ino < b.ino) := by
  simp [Unix.FileIdentity.cmp, then_eq_lt_iff, Nat.compare_eq_lt, Nat.compare_eq_eq]

theorem cmpBytes_eq_eq_iff (xs ys : List Nat) :
    Win.cmpBytes xs ys = Ordering.eq ↔ xs = ys := by
  induction xs generalizing ys with
  | nil => cases ys <;> simp [Win.cmpBytes]
  | cons x xs ih =>
    cases ys with
    | nil => simp [Win.cmpBytes]
    | cons y ys =>
      simp [Win.cmpBytes, then_eq_eq_iff, Nat.compare_eq_eq, ih]

theorem cmpBytes_gt_iff_lt (xs ys : List Nat) :
    Win.cmpBytes xs ys = Ordering.gt ↔ Win.cmpBytes ys xs = Ordering.lt := by
  induction xs generalizing ys with
  | nil => cases ys <;> simp [Win.cmpBytes]
  | cons x xs ih =>
    cases ys with
    | nil => simp [Win.cmpBytes]
    | cons y ys =>
      simp only [Win.cmpBytes, then_eq_gt_iff, then_eq_lt_iff,
        Nat.compare_eq_gt, Nat.compare_eq_lt, Nat.compare_eq_eq, ih]
      constructor
      · rintro (h | ⟨rfl, h⟩)
        · exact Or.inl h
        · exact Or.inr ⟨rfl, h⟩
      · rintro (h | ⟨rfl, h⟩)
        · exact Or.inl h
        · exact Or.inr ⟨rfl, h⟩

theorem cmpBytes_le_trans {xs ys zs : List Nat}
    (h1 : Win.cmpBytes xs ys ≠ Ordering.gt)
    (h2 : Win.cmpBytes ys zs ≠ Ordering.gt) :
    Win.cmpBytes xs zs ≠ Ordering.gt := by
  induction xs generalizing ys zs with
  | nil => cases zs <;> simp [Win.cmpBytes]
  | cons x xs ih =>
    cases ys with
    | nil => simp [Win.cmpBytes] at h1
    | cons y ys =>
      cases zs with
      | nil => simp [Win.cmpBytes] at h2
      | cons z zs =>
        simp only [ne_eq, Win.cmpBytes, then_eq_gt_iff, Nat.compare_eq_gt,
          Nat.compare_eq_eq, not_or] at h1 h2 ⊢
        push_neg at h1 h2 ⊢
        obtain ⟨hxy, hxy2⟩ := h1
        obtain ⟨hyz, hyz2⟩ := h2
        constructor
        · omega
        · intro hxz
          have hx : x = y := by omega
          subst hx
          exact ih (hxy2 rfl) (hyz2 hxz)

theorem win_cmp_gt_iff (x y : Win.FileId) :
    Win.FileId.cmp x y = Ordering.gt ↔
      y.file_id_info.VolumeSerialNumber < x.file_id_info.VolumeSerialNumber ∨
        (x.file_id_info.VolumeSerialNumber = y.file_id_info.VolumeSerialNumber ∧
          Win.cmpBytes x.file_id_info.FileId.Identifier
            y.file_id_info.FileId.Identifier = Ordering.gt) := by
  simp [Win.FileId.cmp, Win.compare_file_id_128, then_eq_gt_iff,
    Nat.compare_eq_gt, Nat.compare_eq_eq]

theorem win_cmp_lt_iff (x y : Win.FileId) :
    Win.FileId.cmp x y = Ordering.lt ↔
      x.file_id_info.VolumeSerialNumber < y.file_id_info.VolumeSerialNumber ∨
        (x.file_id_info.VolumeSerialNumber = y.file_id_info.VolumeSerialNumber ∧
          Win.cmpBytes x.file_id_info.FileId.Identifier
            y.file_id_info.FileId.Identifier = Ordering.lt) := by
  simp [Win.FileId.cmp, Win.compare_file_id_128, then_eq_lt_iff,
    Nat.compare_eq_lt, Nat.compare_eq_eq]

theorem ordering_eq_of_ne (o : Ordering) (h1 : o ≠ Ordering.lt)
    (h2 : o ≠ Ordering.gt) : o = Ordering.eq := by
  cases o <;> simp_all

theorem ordering_bne_gt (o : Ordering) :
    (o != Ordering.gt) = true ↔ o ≠ Ordering.gt := by
  cases o <;> decide

theorem ordering_beq_lt_false (o : Ordering) :
    (o == Ordering.lt) = false ↔ o ≠ Ordering.lt := by
  cases o <;> decide

theorem unix_leb_iff (a b : Unix.FileIdentity) :
    Unix.FileIdentity.leb a b = true ↔
      Unix.FileIdentity.cmp a b ≠ Ordering.gt := by
  simp [Unix.FileIdentity.leb, ordering_bne_gt]

theorem unix_ltb_false_iff (a b : Unix.FileIdentity) :
    Unix.FileIdentity.ltb a b = false ↔
      Unix.FileIdentity.cmp a b ≠ Ordering.lt := by
  simp [Unix.FileIdentity.ltb, ordering_beq_lt_false]

theorem win_leb_iff (x y : Win.FileId) :
    Win.FileId.leb x y = true ↔ Win.FileId.cmp x y ≠ Ordering.gt := by
  simp [Win.FileId.leb, ordering_bne_gt]

theorem win_ltb_false_iff (x y : Win.FileId) :
    Win.FileId.ltb x y = false ↔ Win.FileId.cmp x y ≠ Ordering.lt := by
  simp [Win.FileId.ltb, ordering_beq_lt_false]

/-! ### Claim theorems -/

/-- C1: two identity values of the same platform backend compare equal iff
all their platform-specific stored fields are numerically equal — Unix
`FileIdentity` (device, inode); Windows `FileId` (volume serial number and
the 16 bytes of the 128-bit file identifier). -/
theorem identity_eq_iff_fields (a b : Unix.FileIdentity) (c d : Win.FileId) :
    (Unix.FileIdentity.beq a b = true ↔ a.dev = b.dev ∧ a.ino = b.ino) ∧
    (Win.FileId.beq c d = true ↔
      c.file_id_info.VolumeSerialNumber = d.file_id_info.VolumeSerialNumber ∧
      c.file_id_info.FileId.Identifier = d.file_id_info.FileId.Identifier) := by
  constructor
  · simp [Unix.FileIdentity.beq]
  · simp [Win.FileId.beq, Win.FILE_ID_INFO.beq, Win.FILE_ID_128.beq]

/-- C2: `Handle` comparisons (`==`, `partial_cmp`, `cmp`) between handles of
any two resource types read only the stored identities and delegate to the
identity operations; replacing the wrapped resources leaves every comparison
unchanged; and on both concrete platform backends `partial_cmp` always
returns `some`, so comparison is total and never fails. -/
theorem handle_cmp_reads_only_identity {Id F1 F2 G1 G2 : Type}
    (beq : Id → Id → Bool) (pcmp : Id → Id → Option Ordering)
    (cmp : Id → Id → Ordering)
    (h1 : Handle Id F1) (h2 : Handle Id F2) (r1 : G1) (r2 : G2)
    (k1 k2 : Handle Id F1)
    (u1 : Handle Unix.FileIdentity F1) (u2 : Handle Unix.FileIdentity F2)
    (w1 : Handle Win.FileId F1) (w2 : Handle Win.FileId F2) :
    (Handle.eqOp beq h1 h2 = beq h1.identity h2.identity) ∧
    (Handle.partialCmpOp pcmp h1 h2 = pcmp h1.identity h2.identity) ∧
    (Handle.cmpOp cmp k1 k2 = cmp k1.identity k2.identity) ∧
    (Handle.eqOp beq { handle := r1, identity := h1.identity }
        { handle := r2, identity := h2.identity } = Handle.eqOp beq h1 h2) ∧
    (Handle.partialCmpOp pcmp { handle := r1, identity := h1.identity }
        { handle := r2, identity := h2.identity } =
      Handle.partialCmpOp pcmp h1 h2) ∧
    (Handle.cmpOp cmp { handle := r1, identity := k1.identity }
        { handle := r1, identity := k2.identity } = Handle.cmpOp cmp k1 k2) ∧
    (Handle.partialCmpOp Unix.FileIdentity.partial_cmp u1 u2 =
      some (Unix.FileIdentity.cmp u1.identity u2.identity)) ∧
    (Handle.partialCmpOp Win.FileId.partial_cmp w1 w2 =
      some (Win.FileId.cmp w1.identity w2.identity)) := by
  exact ⟨rfl, rfl, rfl, rfl, rfl, rfl, rfl, rfl⟩

/-- C4: the identity ordering is a strict total order consistent with
equality on both platform backends: `≤` is transitive, `==` holds iff
neither `<` holds, and the comparison takes the device / volume serial
number as primary key and the inode / 128-bit file index as secondary key. -/
theorem identity_order_strict_total (a b c : Unix.FileIdentity)
    (x y z : Win.FileId) :
    (Unix.FileIdentity.leb a b = true → Unix.FileIdentity.leb b c = true →
      Unix.FileIdentity.leb a c = true) ∧
    (Unix.FileIdentity.beq a b = true ↔
      Unix.FileIdentity.ltb a b = false ∧ Unix.FileIdentity.ltb b a = false) ∧
    (a.dev ≠ b.dev → Unix.FileIdentity.cmp a b = compare a.dev b.dev) ∧
    (a.dev = b.dev → Unix.FileIdentity.cmp a b = compare a.ino b.ino) ∧
    (Win.FileId.leb x y = true → Win.FileId.leb y z = true →
      Win.FileId.leb x z = true) ∧
    (Win.FileId.beq x y = true ↔
      Win.FileId.ltb x y = false ∧ Win.FileId.ltb y x = false) ∧
    (x.file_id_info.VolumeSerialNumber ≠ y.file_id_info.VolumeSerialNumber →
      Win.FileId.cmp x y =
        compare x.file_id_info.VolumeSerialNumber
          y.file_id_info.VolumeSerialNumber) ∧
    (x.file_id_info.VolumeSerialNumber = y.file_id_info.VolumeSerialNumber →
      Win.FileId.cmp x y =
        Win.compare_file_id_128 x.file_id_info.FileId
          y.file_id_info.FileId) := by
  refine ⟨?_, ?_, ?_, ?_, ?_, ?_, ?_, ?_⟩
  · intro hab hbc
    rw [unix_leb_iff] at hab hbc ⊢
    simp only [ne_eq, unix_cmp_gt_iff, not_or, not_and, not_lt]
      at hab hbc ⊢
    obtain ⟨h1, h2⟩ := hab
    obtain ⟨h3, h4⟩ := hbc
    constructor
    · omega
    · intro he
      have hx : a.dev = b.dev := by omega
      have hy : b.dev = c.dev := by omega
      have := h2 hx
      have := h4 hy
      omega
  · rw [unix_ltb_false_iff, unix_ltb_false_iff]
    simp only [Unix.FileIdentity.beq, Bool.and_eq_true, beq_iff_eq,
      ne_eq, unix_cmp_lt_iff, not_or, not_and, not_lt]
    constructor
    · rintro ⟨hd, hi⟩
      refine ⟨⟨by omega, by omega⟩, ⟨by omega, by omega⟩⟩
    · rintro ⟨⟨h1, h2⟩, ⟨h3, h4⟩⟩
      have hd : a.dev = b.dev := by omega
      have hi : a.ino = b.ino := by
        have := h2 hd
        have := h4 hd.symm
        omega
      exact ⟨hd, hi⟩
  · intro hd
    rcases Nat.lt_or_ge a.dev b.dev with h | h
    · rw [(unix_cmp_lt_iff a b).2 (Or.inl h), (Nat.compare_eq_lt).2 h]
    · have h' : b.dev < a.dev := by omega
      rw [(unix_cmp_gt_iff a b).2 (Or.inl h'), (Nat.compare_eq_gt).2 h']
  · intro hd
    simp [Unix.FileIdentity.cmp, hd, Nat.compare_eq_eq.2 rfl, Ordering.then]
  · intro hxy hyz
    rw [win_leb_iff] at hxy hyz ⊢
    simp only [ne_eq, win_cmp_gt_iff, not_or, not_and, not_lt]
      at hxy hyz ⊢
    obtain ⟨h1, h2⟩ := hxy
    obtain ⟨h3, h4⟩ := hyz
    constructor
    · omega
    · intro he
      have hx : x.file_id_info.VolumeSerialNumber =
          y.file_id_info.VolumeSerialNumber := by omega
      have hy : y.file_id_info.VolumeSerialNumber =
          z.file_id_info.VolumeSerialNumber := by omega
      exact cmpBytes_le_trans (h2 hx) (h4 hy)
  · rw [win_ltb_false_iff, win_ltb_false_iff]
    simp only [Win.FileId.beq, Win.FILE_ID_INFO.beq, Win.FILE_ID_128.beq,
      Bool.and_eq_true, beq_iff_eq, ne_eq, win_cmp_lt_iff, not_or,
      not_and, not_lt]
    constructor
    · rintro ⟨hs, hb⟩
      have hbe : Win.cmpBytes x.file_id_info.FileId.Identifier
          y.file_id_info.FileId.Identifier = Ordering.eq :=
        (cmpBytes_eq_eq_iff _ _).2 hb
      have hbe' : Win.cmpBytes y.file_id_info.FileId.Identifier
          x.file_id_info.FileId.Identifier = Ordering.eq :=
        (cmpBytes_eq_eq_iff _ _).2 hb.symm
      refine ⟨⟨by omega, ?_⟩, ⟨by omega, ?_⟩⟩
      · intro _
        simp [hbe]
      · intro _
        simp [hbe']
    · rintro ⟨⟨h1a, h1b⟩, ⟨h2a, h2b⟩⟩
      have hs : x.file_id_info.VolumeSerialNumber =
          y.file_id_info.VolumeSerialNumber := by omega
      refine ⟨hs, ?_⟩
      have hne1 := h1b hs
      have hne2 := h2b hs.symm
      have hne2' : Win.cmpBytes x.file_id_info.FileId.Identifier
          y.file_id_info.FileId.Identifier ≠ Ordering.gt := by
        intro hg
        exact hne2 ((cmpBytes_gt_iff_lt _ _).1 hg)
      exact (cmpBytes_eq_eq_iff _ _).1 (ordering_eq_of_ne _ hne1 hne2')
  · intro hd
    rcases Nat.lt_or_ge x.file_id_info.VolumeSerialNumber
        y.file_id_info.VolumeSerialNumber with h | h
    · rw [(win_cmp_lt_iff x y).2 (Or.inl h), (Nat.compare_eq_lt).2 h]
    · have h' : y.file_id_info.VolumeSerialNumber <
          x.file_id_info.VolumeSerialNumber := by omega
      rw [(win_cmp_gt_iff x y).2 (Or.inl h'), (Nat.compare_eq_gt).2 h']
  · intro hd
    simp [Win.FileId.cmp, hd, Nat.compare_eq_eq.2 rfl, Ordering.then]

/-- Witness for C4: the order facts evaluated at concrete identities. -/
theorem identity_order_strict_total_w :
    Unix.FileIdentity.leb { dev := 1, ino := 5 } { dev := 2, ino := 0 } = true ∧
    Win.FileId.leb
      { file_id_info := { VolumeSerialNumber := 3,
                          FileId := { Identifier := [1, 2] } } }
      { file_id_info := { VolumeSerialNumber := 4,
                          FileId := { Identifier := [0, 0] } } } = true := by
  have h := identity_order_strict_total
    { dev := 1, ino := 5 } { dev := 1, ino := 9 } { dev := 2, ino := 0 }
    { file_id_info := { VolumeSerialNumber := 3,
                        FileId := { Identifier := [1, 2] } } }
    { file_id_info := { VolumeSerialNumber := 3,
                        FileId := { Identifier := [1, 7] } } }
    { file_id_info := { VolumeSerialNumber := 4,
                        FileId := { Identifier := [0, 0] } } }
  exact ⟨h.1 (by decide) (by decide),
    h.2.2.2.2.1 (by decide) (by decide)⟩

/-- C3: `is_same_file` opens both paths, builds a `Handle` for each and
returns `Ok` of their equality; an open or extraction failure on either path
is returned as that error; and when opening the first path fails, the error
is returned with only the first path ever passed to `File::open` (the run
log is `[path1]`). -/
theorem is_same_file_spec {Id F : Type} (openRO : FsPath → Except IoError F)
    (extract : F → Except IoError Id) (beq : Id → Id → Bool)
    (p1 p2 : FsPath) :
    (is_same_file openRO extract beq p1 p2 =
      (is_same_file_run openRO extract beq p1 p2).1) ∧
    (∀ h1 h2, Handle.from_path openRO extract p1 = Except.ok h1 →
      Handle.from_path openRO extract p2 = Except.ok h2 →
      is_same_file openRO extract beq p1 p2 =
        Except.ok (Handle.eqOp beq h1 h2)) ∧
    (∀ e, Handle.from_path openRO extract p1 = Except.error e →
      is_same_file openRO extract beq p1 p2 = Except.error e) ∧
    (∀ h1 e, Handle.from_path openRO extract p1 = Except.ok h1 →
      Handle.from_path openRO extract p2 = Except.error e →
      is_same_file openRO extract beq p1 p2 = Except.error e) ∧
    (∀ e, openRO p1 = Except.error e →
      is_same_file_run openRO extract beq p1 p2 = (Except.error e, [p1])) ∧
    (∀ f1 e, openRO p1 = Except.ok f1 → extract f1 = Except.error e →
      is_same_file_run openRO extract beq p1 p2 = (Except.error e, [p1])) := by
  refine ⟨?_, ?_, ?_, ?_, ?_, ?_⟩
  · rcases ho1 : openRO p1 with e1 | f1
    · simp [is_same_file, is_same_file_run, Handle.from_path, ho1]
    · rcases hx1 : extract f1 with e1 | i1
      · simp [is_same_file, is_same_file_run, Handle.from_path,
          Handle.from_file_like, ho1, hx1]
      · rcases ho2 : openRO p2 with e2 | f2
        · simp [is_same_file, is_same_file_run, Handle.from_path,
            Handle.from_file_like, ho1, hx1, ho2]
        · rcases hx2 : extract f2 with e2 | i2 <;>
            simp [is_same_file, is_same_file_run, Handle.from_path,
              Handle.from_file_like, Handle.eqOp, ho1, hx1, ho2, hx2]
  · intro h1 h2 hp1 hp2
    simp [is_same_file, hp1, hp2]
  · intro e hp1
    simp [is_same_file, hp1]
  · intro h1 e hp1 hp2
    simp [is_same_file, hp1, hp2]
  · intro e ho1
    simp [is_same_file_run, ho1]
  · intro f1 e ho1 hx1
    simp [is_same_file_run, ho1, hx1]

/-- Witness for C3: against a filesystem holding only `"a"`, comparing a
missing path short-circuits with `NotFound` after touching only the first
path, and comparing `"a"` with itself returns `Ok true`. -/
theorem is_same_file_spec_w :
    is_same_file_run Fixtures.openA Fixtures.extractDev
        Unix.FileIdentity.beq "missing" "a" =
      (Except.error { kind := ErrorKind.notFound, msg := "No such file" },
        ["missing"]) ∧
    is_same_file Fixtures.openA Fixtures.extractDev
        Unix.FileIdentity.beq "a" "a" = Except.ok true := by
  have h := is_same_file_spec Fixtures.openA Fixtures.extractDev
    Unix.FileIdentity.beq "missing" "a"
  have h2 := is_same_file_spec Fixtures.openA Fixtures.extractDev
    Unix.FileIdentity.beq "a" "a"
  refine ⟨h.2.2.2.2.1 _ (by rfl), ?_⟩
  have he := h2.2.1 { handle := 3, identity := { dev := 1, ino := 3 } }
    { handle := 3, identity := { dev := 1, ino := 3 } } (by rfl) (by rfl)
  rw [he]
  rfl

/-- C5: on Windows, `FileId::from_filelike` rejects a handle whose file type
is not `FILE_TYPE_DISK` with an `InvalidData` error whose message names the
actual handle type, without issuing the identity query; for disk handles it
issues `GetFileInformationByHandleEx` and returns its identity on success or
its OS error unchanged on failure. -/
theorem win_from_filelike_spec (os : Win.WinOs) (f : Fd) :
    (os.getFileType f ≠ Win.FILE_TYPE_DISK →
      Win.FileId.from_filelike os f =
        { result := Except.error
            { kind := ErrorKind.invalidData,
              msg := Win.invalidDataMsg (os.getFileType f) },
          queried := false }) ∧
    (∀ e, os.getFileType f = Win.FILE_TYPE_DISK →
      os.getFileInformationByHandleEx f = Except.error e →
      Win.FileId.from_filelike os f =
        { result := Except.error e, queried := true }) ∧
    (∀ info, os.getFileType f = Win.FILE_TYPE_DISK →
      os.getFileInformationByHandleEx f = Except.ok info →
      Win.FileId.from_filelike os f =
        { result := Except.ok { file_id_info := info }, queried := true }) := by
  refine ⟨?_, ?_, ?_⟩
  · intro hft
    simp [Win.FileId.from_filelike, hft]
  · intro e hft hq
    simp [Win.FileId.from_filelike, hft, hq]
  · intro info hft hq
    simp [Win.FileId.from_filelike, hft, hq]

/-- Witness for C5: a pipe handle (type 3) is rejected without a query, a
failing query on a disk handle passes the OS error through, and a
successful query returns the identity. -/
theorem win_from_filelike_spec_w :
    Win.FileId.from_filelike Fixtures.winOsPipe 0 =
      { result := Except.error
          { kind := ErrorKind.invalidData,
            msg := Win.invalidDataMsg 3 },
        queried := false } ∧
    Win.FileId.from_filelike Fixtures.winOsDiskErr 0 =
      { result := Except.error
          { kind := ErrorKind.osError 5,
            msg := "Access is denied." },
        queried := true } ∧
    Win.FileId.from_filelike Fixtures.winOsDisk 0 =
      { result := Except.ok { file_id_info :=
          { VolumeSerialNumber := 7, FileId := { Identifier := [1] } } },
        queried := true } :=
  ⟨(win_from_filelike_spec Fixtures.winOsPipe 0).1 (by decide),
   (win_from_filelike_spec Fixtures.winOsDiskErr 0).2.1 _ rfl rfl,
   (win_from_filelike_spec Fixtures.winOsDisk 0).2.2 _ rfl rfl⟩

/-- C6: on Unix, `FileIdentity::from_os_file` returns exactly the device and
inode numbers of the descriptor's metadata, passes a metadata error through
unchanged, and on every path leaves the fd-state — in particular the
caller's descriptor — exactly as it was: the temporary owning `File` is
released via `into_raw_fd` and never closes the descriptor. -/
theorem unix_from_os_file_spec (md : Fd → Except IoError Unix.Metadata)
    (f : Fd) (σ : FdState) :
    ((Unix.FileIdentity.from_os_file md f σ).2 = σ) ∧
    (∀ m, md f = Except.ok m →
      (Unix.FileIdentity.from_os_file md f σ).1 =
        Except.ok { dev := m.dev, ino := m.ino }) ∧
    (∀ e, md f = Except.error e →
      (Unix.FileIdentity.from_os_file md f σ).1 = Except.error e) ∧
    ((Unix.FileIdentity.from_os_file md f σ).2 f = σ f) := by
  refine ⟨rfl, ?_, ?_, rfl⟩
  · intro m hm
    simp [Unix.FileIdentity.from_os_file, Unix.FileIdentity.from_metadata,
      Unix.RsFile.into_raw_fd, Unix.RsFile.from_raw_fd, Except.map, hm]
  · intro e he
    simp [Unix.FileIdentity.from_os_file, Unix.RsFile.into_raw_fd,
      Unix.RsFile.from_raw_fd, Except.map, he]

/-- Witness for C6: a successful metadata query yields the device and inode
from the metadata; a failing one passes the error through with every
descriptor still open. -/
theorem unix_from_os_file_spec_w :
    (Unix.FileIdentity.from_os_file Fixtures.mdOk 5 Fixtures.allOpen).1 =
      Except.ok { dev := 1, ino := 5 } ∧
    (Unix.FileIdentity.from_os_file Fixtures.mdErr 5 Fixtures.allOpen).1 =
      Except.error { kind := ErrorKind.other, msg := "metadata failed" } ∧
    (Unix.FileIdentity.from_os_file Fixtures.mdErr 5 Fixtures.allOpen).2 =
      Fixtures.allOpen :=
  ⟨(unix_from_os_file_spec Fixtures.mdOk 5 Fixtures.allOpen).2.1 _ rfl,
   (unix_from_os_file_spec Fixtures.mdErr 5 Fixtures.allOpen).2.2.1 _ rfl,
   (unix_from_os_file_spec Fixtures.mdErr 5 Fixtures.allOpen).1⟩

/-- C7: `Handle::from_file_like` succeeds exactly when identity extraction
succeeds; on success the handle stores the resource unchanged together with
the extracted identity, and on failure the extractor's error is returned
unchanged. -/
theorem handle_from_file_like_spec {Id F : Type}
    (extract : F → Except IoError Id) (f : F) :
    (∀ i, extract f = Except.ok i →
      Handle.from_file_like extract f =
        Except.ok { handle := f, identity := i }) ∧
    (∀ e, extract f = Except.error e →
      Handle.from_file_like extract f = Except.error e) ∧
    ((∃ h, Handle.from_file_like extract f = Except.ok h) ↔
      (∃ i, extract f = Except.ok i)) := by
  refine ⟨?_, ?_, ?_⟩
  · intro i hi
    simp [Handle.from_file_like, hi]
  · intro e he
    simp [Handle.from_file_like, he]
  · constructor
    · rintro ⟨h, hh⟩
      rcases hx : extract f with e | i
      · simp [Handle.from_file_like, hx] at hh
      · exact ⟨i, rfl⟩
    · rintro ⟨i, hi⟩
      exact ⟨{ handle := f, identity := i },
        by simp [Handle.from_file_like, hi]⟩

/-- Witness for C7: a succeeding extractor yields the handle with the
resource and the extracted identity; a failing one returns its error. -/
theorem handle_from_file_like_spec_w :
    Handle.from_file_like Fixtures.extractDev 3 =
      Except.ok { handle := 3, identity := { dev := 1, ino := 3 } } ∧
    Handle.from_file_like Fixtures.extractFail 3 =
      Except.error { kind := ErrorKind.other, msg := "metadata failed" } :=
  ⟨(handle_from_file_like_spec Fixtures.extractDev 3).1 _ rfl,
   (handle_from_file_like_spec Fixtures.extractFail 3).2.1 _ rfl⟩

/-- C8: every successfully built standard-stream handle (`stdin`, `stdout`,
`stderr`) carries `is_std = true`, and dropping it leaves the fd-state
untouched: the `Drop` impl takes the `File` out and consumes it with
`into_raw_fd` instead of letting it close the stream. -/
theorem std_handle_drop_no_close (md : Fd → Except IoError Unix.Metadata)
    (σ : FdState) :
    (∀ h, Unix.UHandle.stdin md = Except.ok h →
      h.is_std = true ∧ Unix.UHandle.dropH h σ = σ) ∧
    (∀ h, Unix.UHandle.stdout md = Except.ok h →
      h.is_std = true ∧ Unix.UHandle.dropH h σ = σ) ∧
    (∀ h, Unix.UHandle.stderr md = Except.ok h →
      h.is_std = true ∧ Unix.UHandle.dropH h σ = σ) := by
  refine ⟨?_, ?_, ?_⟩ <;>
  · intro h hh
    simp only [Unix.UHandle.stdin, Unix.UHandle.stdout, Unix.UHandle.stderr,
      Unix.UHandle.from_std, Unix.UHandle.from_file] at hh
    rcases hm : md 0 with e | m <;> rcases hm1 : md 1 with e1 | m1 <;>
      rcases hm2 : md 2 with e2 | m2 <;>
      simp [hm, hm1, hm2, Except.map] at hh <;>
      (rw [← hh]; exact ⟨rfl, rfl⟩)

/-- Witness for C8: with a succeeding metadata oracle, the stdin handle has
`is_std = true` and dropping it leaves every descriptor open. -/
theorem std_handle_drop_no_close_w :
    Unix.UHandle.dropH
      { file := some 0, is_std := true, id := { dev := 1, ino := 0 } }
      Fixtures.allOpen = Fixtures.allOpen := by
  have h := std_handle_drop_no_close Fixtures.mdOk Fixtures.allOpen
  exact (h.1 _ rfl).2

/-- C9: on the unsupported platform every operation returns the one fixed
descriptive error, and the identity and handle types are uninhabited, so
their equality and ordering code is unreachable. -/
theorem unknown_fixed_error (p : FsPath) {F : Type} (file : F) (f : Fd) :
    (Unknown.UnkHandle.from_path p = Except.error
      { kind := ErrorKind.other, msg := Unknown.ERROR_MESSAGE }) ∧
    (Unknown.UnkHandle.from_file file = Except.error
      { kind := ErrorKind.other, msg := Unknown.ERROR_MESSAGE }) ∧
    (Unknown.UnkHandle.stdin = Except.error
      { kind := ErrorKind.other, msg := Unknown.ERROR_MESSAGE }) ∧
    (Unknown.UnkHandle.stdout = Except.error
      { kind := ErrorKind.other, msg := Unknown.ERROR_MESSAGE }) ∧
    (Unknown.UnkHandle.stderr = Except.error
      { kind := ErrorKind.other, msg := Unknown.ERROR_MESSAGE }) ∧
    (Unknown.FileIdentity.from_os_file f = Except.error
      { kind := ErrorKind.other, msg := Unknown.ERROR_MESSAGE }) ∧
    (Unknown.FileIdentity → False) ∧
    (Unknown.UnkHandle → False) :=
  ⟨rfl, rfl, rfl, rfl, rfl, rfl,
   fun a => a.toNever.elim, fun h => h.toNever.elim⟩

/-- C10: `Handle::id` returns the stored identity — for a handle built by
`from_file_like`, exactly the identity extracted at construction — and,
taking the handle by value, its return drops the wrapped resource (`dropF`);
when the resource is an owned `File` on a raw fd, that close leaves the fd
closed in the resulting state. -/
theorem handle_id_spec {Id F : Type} (dropF : F → FdState → FdState)
    (extract : F → Except IoError Id) (f : F) (σ : FdState)
    (h : Handle Id F) (hfd : Handle Id Fd) :
    (Handle.id h = h.identity) ∧
    (Handle.idConsume dropF h σ = (h.identity, dropF h.handle σ)) ∧
    (∀ i hh, extract f = Except.ok i →
      Handle.from_file_like extract f = Except.ok hh → Handle.id hh = i) ∧
    ((Handle.idConsume (fun fd σ0 => (Unix.RsFile.from_raw_fd fd).dropFile σ0)
        hfd σ).2 hfd.handle = false) := by
  refine ⟨rfl, rfl, ?_, ?_⟩
  · intro i hh hi hhh
    simp [Handle.from_file_like, hi] at hhh
    rw [← hhh]
    rfl
  · simp [Handle.idConsume, Unix.RsFile.dropFile, Unix.RsFile.from_raw_fd,
      closeFd]

/-- Witness for C10: a handle built from a succeeding extractor returns the
extracted identity from `Handle::id`. -/
theorem handle_id_spec_w :
    Handle.id ({ handle := 3, identity := { dev := 1, ino := 3 } } :
      Handle Unix.FileIdentity Fd) = { dev := 1, ino := 3 } := by
  have h := handle_id_spec (fun _ σ0 => σ0) Fixtures.extractDev 3
    Fixtures.allOpen
    ({ handle := 3, identity := { dev := 1, ino := 3 } } :
      Handle Unix.FileIdentity Fd)
    ({ handle := 3, identity := { dev := 1, ino := 3 } } :
      Handle Unix.FileIdentity Fd)
  exact h.2.2.1 _ _ rfl rfl

end CrossFileId
